import Mathlib

/-!
Verification of the RAG pipeline and Wattpad fetcher of this repository.

The pipeline (src/ragging/main.py, src/ragging/utils/vectorstore.py) wires a
document loader, a text splitter, an embedding call, a vector index and a
hosted model. Splitting, embedding and indexing are supplied by imported
libraries, so their contracts are modelled from the spec; the template, the
chain wiring and the VectorStore class structure are embedded from the source.
The Wattpad fetcher (src/qwen-playground/scripts/fetch_wattpad_stories.py) is
embedded at the level of HTTP outcomes.
-/

namespace Ragging

/-- Error raised by the Chunk Splitter configuration check.
Modelled from the spec: "an overlap length (overlap < chunk size, else
ConfigError)"; the splitter itself (langchain RecursiveCharacterTextSplitter)
is not part of this repository. -/
inductive SplitError where
  | ConfigError
  deriving Repr, DecidableEq

/-- Modelled from the spec: the sliding-window chunker underlying the Chunk
Splitter contract of section 4.2 (the library implementation is not in this
repository). Text is a list of characters; each chunk takes `size` characters
and the window advances by `stride = size - overlap` characters; the final
window, once the remaining text fits in one chunk, is emitted whole. The
spec's soft preference for natural text breaks is a heuristic on boundary
placement and is not modelled; the hard-cut fallback is. -/
def splitGo (size stride : ℕ) (t : List Char) : List (List Char) :=
  if h : size < t.length ∧ 0 < stride then
    t.take size :: splitGo size stride (t.drop stride)
  else
    [t]
termination_by t.length
decreasing_by
  obtain ⟨h1, h2⟩ := h
  simp only [List.length_drop]
  omega

/-- Modelled from the spec: the Chunk Splitter entry point
(`VectorStore.split_documents` delegates to the library splitter configured
with `chunk_size` and `chunk_overlap`). Rejects `overlap ≥ size` with
`ConfigError`, otherwise produces the finite chunk sequence of one document. -/
def split_documents (size overlap : ℕ) (t : List Char) :
    Except SplitError (List (List Char)) :=
  if overlap < size then
    .ok (splitGo size (size - overlap) t)
  else
    .error .ConfigError

/-- Concatenation of the unique (non-overlap) portions of a chunk sequence:
the first chunk whole, every later chunk with its leading `overlap`
characters (shared with its predecessor) removed. -/
def reconstruct (overlap : ℕ) : List (List Char) → List Char
  | [] => []
  | c :: cs => c ++ (cs.map (fun d => d.drop overlap)).flatten

/-- Two consecutive chunks overlap by exactly `overlap` characters: the last
`overlap` characters of the first are the first `overlap` characters of the
second. -/
def overlapsBy (overlap : ℕ) (a b : List Char) : Prop :=
  a.drop (a.length - overlap) = b.take overlap

theorem splitGo_drop_flatten (size overlap : ℕ) (h : overlap < size) :
    ∀ t : List Char,
      ((splitGo size (size - overlap) t).map (fun c => c.drop overlap)).flatten
        = t.drop overlap := by
  suffices H : ∀ n, ∀ t : List Char, t.length ≤ n →
      ((splitGo size (size - overlap) t).map (fun c => c.drop overlap)).flatten
        = t.drop overlap from
    fun t => H t.length t le_rfl
  intro n
  induction n with
  | zero =>
    intro t ht
    have ht0 : t.length = 0 := Nat.le_zero.mp ht
    rw [splitGo]
    simp [Nat.not_lt_of_le (ht0 ▸ Nat.zero_le size)]
  | succ n ih =>
    intro t ht
    rw [splitGo]
    split
    · next hcond =>
      have hlong : size < t.length := hcond.1
      have hstride : 0 < size - overlap := hcond.2
      have hrec : (t.drop (size - overlap)).length ≤ n := by
        simp only [List.length_drop]
        omega
      simp only [List.map_cons, List.flatten_cons, ih _ hrec]
      have h1 : (t.drop (size - overlap)).drop overlap = t.drop size := by
        rw [List.drop_drop]
        congr 1
        omega
      have h2 : (t.take size).drop overlap = (t.drop overlap).take (size - overlap) := by
        rw [List.drop_take]
      rw [h1, h2]
      have h3 : (t.drop overlap).drop (size - overlap) = t.drop size := by
        rw [List.drop_drop]
        congr 1
        omega
      calc (t.drop overlap).take (size - overlap) ++ t.drop size
          = (t.drop overlap).take (size - overlap) ++ (t.drop overlap).drop (size - overlap) := by
            rw [h3]
        _ = t.drop overlap := List.take_append_drop _ _
    · simp

theorem splitGo_reconstruct (size overlap : ℕ) (h : overlap < size)
    (t : List Char) :
    reconstruct overlap (splitGo size (size - overlap) t) = t := by
  rw [splitGo]
  split
  · next hcond =>
    simp only [reconstruct, splitGo_drop_flatten size overlap h]
    have h1 : (t.drop (size - overlap)).drop overlap = t.drop size := by
      rw [List.drop_drop]
      congr 1
      omega
    rw [h1, List.take_append_drop]
  · simp [reconstruct]

theorem splitGo_head_take (size overlap : ℕ) (h : overlap < size)
    (t : List Char) (c : List Char)
    (hc : (splitGo size (size - overlap) t).head? = some c) :
    c.take overlap = t.take overlap := by
  rw [splitGo] at hc
  split at hc
  · simp only [List.head?_cons, Option.some.injEq] at hc
    subst hc
    rw [List.take_take]
    congr 1
    omega
  · simp only [List.head?_cons, Option.some.injEq] at hc
    subst hc
    rfl

theorem splitGo_chain (size overlap : ℕ) (h : overlap < size) :
    ∀ t : List Char,
      List.Chain' (overlapsBy overlap) (splitGo size (size - overlap) t) := by
  suffices H : ∀ n, ∀ t : List Char, t.length ≤ n →
      List.Chain' (overlapsBy overlap) (splitGo size (size - overlap) t) from
    fun t => H t.length t le_rfl
  intro n
  induction n with
  | zero =>
    intro t ht
    have ht0 : t.length = 0 := Nat.le_zero.mp ht
    rw [splitGo]
    simp [Nat.not_lt_of_le (ht0 ▸ Nat.zero_le size)]
  | succ n ih =>
    intro t ht
    rw [splitGo]
    split
    · next hcond =>
      have hlong : size < t.length := hcond.1
      have hstride : 0 < size - overlap := hcond.2
      have hrec : (t.drop (size - overlap)).length ≤ n := by
        simp only [List.length_drop]
        omega
      rw [List.chain'_cons']
      refine ⟨?_, ih _ hrec⟩
      intro b hb
      have hbt : b.take overlap = (t.drop (size - overlap)).take overlap :=
        splitGo_head_take size overlap h _ _ hb
      unfold overlapsBy
      have hlen : (t.take size).length = size := by
        simp only [List.length_take]
        omega
      rw [hlen, hbt, List.drop_take]
      congr 1
      omega
    · simp

theorem splitGo_length_le (size stride : ℕ) (hs : 0 < stride) :
    ∀ t : List Char, ∀ c ∈ splitGo size stride t, c.length ≤ size := by
  suffices H : ∀ n, ∀ t : List Char, t.length ≤ n →
      ∀ c ∈ splitGo size stride t, c.length ≤ size from
    fun t => H t.length t le_rfl
  intro n
  induction n with
  | zero =>
    intro t ht c hc
    have ht0 : t.length = 0 := Nat.le_zero.mp ht
    rw [splitGo] at hc
    rw [dif_neg (by omega : ¬(size < t.length ∧ 0 < stride))] at hc
    simp only [List.mem_singleton] at hc
    subst hc
    omega
  | succ n ih =>
    intro t ht c hc
    rw [splitGo] at hc
    split at hc
    · next hcond =>
      rcases List.mem_cons.mp hc with hc | hc
      · subst hc
        simp only [List.length_take]
        omega
      · have hrec : (t.drop stride).length ≤ n := by
          simp only [List.length_drop]
          omega
        exact ih _ hrec c hc
    · next hcond =>
      simp only [List.mem_singleton] at hc
      subst hc
      omega

/-- C1: for every document `t`, chunk size `S` and overlap `O < S`, the Chunk
Splitter succeeds and its chunk sequence both reconstructs `t` exactly when
the non-overlap portions are concatenated in order, and has every pair of
consecutive chunks overlapping by exactly `O` characters. -/
theorem C1_split_reconstruct (t : List Char) (S O : ℕ) (h : O < S) :
    ∃ cs, split_documents S O t = .ok cs ∧
      reconstruct O cs = t ∧
      List.Chain' (overlapsBy O) cs := by
  refine ⟨splitGo S (S - O) t, ?_, splitGo_reconstruct S O h t, splitGo_chain S O h t⟩
  simp [split_documents, h]

/-- Witness for C1 at the document "abcdefgh" with size 4 and overlap 2. -/
theorem C1_split_reconstruct_witness :
    (2 : ℕ) < 4 ∧
    ∃ cs, split_documents 4 2 "abcdefgh".data = .ok cs ∧
      reconstruct 2 cs = "abcdefgh".data ∧
      List.Chain' (overlapsBy 2) cs :=
  ⟨by decide, C1_split_reconstruct ("abcdefgh".data) 4 2 (by decide)⟩

/-- C3: constructing the Chunk Splitter with `O ≥ S` fails with `ConfigError`,
and with `O < S` it succeeds, producing a finite sequence of chunks. -/
theorem C3_config_check (S O : ℕ) (t : List Char) :
    (S ≤ O → split_documents S O t = .error .ConfigError) ∧
    (O < S → ∃ cs, split_documents S O t = .ok cs) := by
  constructor
  · intro h
    rw [split_documents, if_neg (by omega)]
  · intro h
    exact ⟨splitGo S (S - O) t, by rw [split_documents, if_pos h]⟩

/-- Witness for C3: overlap 4 ≥ size 4 is rejected, overlap 2 < size 4 is
accepted, on the document "abc". -/
theorem C3_config_check_witness :
    ((4 : ℕ) ≤ 4 ∧ split_documents 4 4 "abc".data = .error .ConfigError) ∧
    ((2 : ℕ) < 4 ∧ ∃ cs, split_documents 4 2 "abc".data = .ok cs) :=
  ⟨⟨by decide, (C3_config_check 4 4 "abc".data).1 (by decide)⟩,
   ⟨by decide, (C3_config_check 4 2 "abc".data).2 (by decide)⟩⟩

/-- C5: for every document split with chunk size `S` (overlap `O < S`), every
produced chunk except possibly the last has length at most `S` (in this model
the final chunk satisfies the bound as well, which is at least as strong). -/
theorem C5_chunk_length_bound (t : List Char) (S O : ℕ) (h : O < S) :
    ∃ cs, split_documents S O t = .ok cs ∧
      ∀ c ∈ cs.dropLast, c.length ≤ S := by
  refine ⟨splitGo S (S - O) t, by rw [split_documents, if_pos h], ?_⟩
  intro c hc
  exact splitGo_length_le S (S - O) (by omega) t c
    ((List.dropLast_sublist _).subset hc)

/-- Witness for C5 at the document "abcdefgh" with size 4 and overlap 2. -/
theorem C5_chunk_length_bound_witness :
    (2 : ℕ) < 4 ∧
    ∃ cs, split_documents 4 2 "abcdefgh".data = .ok cs ∧
      ∀ c ∈ cs.dropLast, c.length ≤ 4 :=
  ⟨by decide, C5_chunk_length_bound ("abcdefgh".data) 4 2 (by decide)⟩

/-- Entry of the Vector Index: a chunk paired with its embedding vector.
Modelled from the spec (section 4.4); the index implementation (FAISS) is not
part of this repository. -/
structure IndexEntry where
  chunk : String
  vec : List ℤ
  deriving Repr, DecidableEq

/-- Vector Index state: the established dimensionality and the stored entries
in insertion order. Modelled from the spec (section 4.4). -/
structure VectorIndex where
  dim : ℕ
  entries : List IndexEntry
  deriving Repr, DecidableEq

/-- Error raised on a dimensionality contract violation.
Modelled from the spec (sections 4.4 and 7). -/
inductive IndexError where
  | DimensionMismatchError
  deriving Repr, DecidableEq

/-- Squared Euclidean distance between two vectors (the fixed
construction-time metric choice of section 4.4; smaller is closer). -/
def sqDist (a b : List ℤ) : ℤ :=
  (List.zipWith (fun x y => (x - y) * (x - y)) a b).sum

/-- Ranking used by `query`: closer first, ties broken by insertion order
(earliest first), as section 4.4 requires. -/
def rankLe (v : List ℤ) (a b : ℕ × IndexEntry) : Bool :=
  decide (sqDist v a.2.vec < sqDist v b.2.vec ∨
    (sqDist v a.2.vec = sqDist v b.2.vec ∧ a.1 ≤ b.1))

/-- Insertion step of the sort underlying `query`. -/
def insortBy {α : Type} (le : α → α → Bool) (a : α) : List α → List α
  | [] => [a]
  | b :: l => if le a b then a :: b :: l else b :: insortBy le a l

/-- Insertion sort underlying `query`. -/
def sortBy {α : Type} (le : α → α → Bool) : List α → List α
  | [] => []
  | a :: l => insortBy le a (sortBy le l)

/-- Modelled from the spec: `build(entries)` constructs an index over all
entries in one pass, fixing the dimensionality chosen at construction time. -/
def build (dim : ℕ) (es : List IndexEntry) : VectorIndex :=
  ⟨dim, es⟩

/-- Modelled from the spec: `query(vector, k)` returns the `k` entries whose
vectors are closest to the query vector, ties broken by insertion order, and
fails with `DimensionMismatchError` (returning no entries at all) when the
query vector's dimensionality differs from the index's. -/
def query (idx : VectorIndex) (v : List ℤ) (k : ℕ) :
    Except IndexError (List IndexEntry) :=
  if v.length = idx.dim then
    .ok (((sortBy (rankLe v) idx.entries.enum).take k).map Prod.snd)
  else
    .error .DimensionMismatchError

/-- Modelled from the spec: `add(entries)` incrementally extends an existing
index, failing with `DimensionMismatchError` and leaving the index unchanged
when any added vector's dimensionality differs from the index's. -/
def add_entries (idx : VectorIndex) (es : List IndexEntry) :
    VectorIndex × Option IndexError :=
  if es.all (fun e => e.vec.length == idx.dim) then
    (⟨idx.dim, idx.entries ++ es⟩, none)
  else
    (idx, some .DimensionMismatchError)

/-- C4: building the Vector Index twice from the same sequence of chunk+vector
pairs yields identical query results for every query vector and every `k`. -/
theorem C4_build_idempotent (dim : ℕ) (es : List IndexEntry) (v : List ℤ)
    (k : ℕ) (i1 i2 : VectorIndex)
    (h1 : i1 = build dim es) (h2 : i2 = build dim es) :
    query i1 v k = query i2 v k := by
  subst h1
  subst h2
  rfl

/-- Witness for C4 on a concrete two-entry index. -/
theorem C4_build_idempotent_witness :
    query (build 2 [⟨"a", [1, 2]⟩, ⟨"b", [3, 4]⟩]) [0, 1] 1
      = query (build 2 [⟨"a", [1, 2]⟩, ⟨"b", [3, 4]⟩]) [0, 1] 1 :=
  C4_build_idempotent 2 [⟨"a", [1, 2]⟩, ⟨"b", [3, 4]⟩] [0, 1] 1 _ _ rfl rfl

/-- C6: querying with a vector of the wrong dimensionality fails with
`DimensionMismatchError` and returns no entries at all, and adding entries
containing a vector of the wrong dimensionality fails with
`DimensionMismatchError` and leaves the index unchanged. Both operations are
pure functions of their arguments, hence deterministic. -/
theorem C6_dimension_mismatch (idx : VectorIndex) (v : List ℤ) (k : ℕ)
    (es : List IndexEntry) (hq : v.length ≠ idx.dim)
    (ha : ∃ e ∈ es, e.vec.length ≠ idx.dim) :
    query idx v k = .error .DimensionMismatchError ∧
    add_entries idx es = (idx, some .DimensionMismatchError) := by
  constructor
  · rw [query, if_neg hq]
  · obtain ⟨e, he, hne⟩ := ha
    rw [add_entries, if_neg]
    intro hall
    rw [List.all_eq_true] at hall
    exact hne (by simpa using hall e he)

/-- Witness for C6: a 3-dimension index queried with a 2-dimension vector and
extended with a 1-dimension vector. -/
theorem C6_dimension_mismatch_witness :
    query ⟨3, []⟩ [1, 2] 5 = .error .DimensionMismatchError ∧
    add_entries ⟨3, []⟩ [⟨"x", [1]⟩] = (⟨3, []⟩, some .DimensionMismatchError) :=
  C6_dimension_mismatch ⟨3, []⟩ [1, 2] 5 [⟨"x", [1]⟩] (by decide)
    ⟨⟨"x", [1]⟩, by decide, by decide⟩

/-- The `VectorStore` class of src/ragging/utils/vectorstore.py. The loader,
documents, embeddings and db fields hold external-library objects, kept
abstract as type parameters; `chunk_size` and `chunk_overlap` are the splitter
configuration. -/
structure VectorStore (Loader Doc Emb Db : Type) where
  loader : Loader
  documents : List Doc
  chunk_size : ℕ
  chunk_overlap : ℕ
  embeddings : Emb
  db : Db

/-- The `get_db` method of `VectorStore`: returns the stored index. -/
def get_db {L D E B : Type} (s : VectorStore L D E B) : B :=
  s.db

/-- The `add_documents` method of `VectorStore`: updates the stored index by
the library's `db.add_documents` call (abstract parameter `addDocs`, since
FAISS is external) and returns the stored index. Python mutation is modelled
as state passing: the result pairs the updated store with the returned value. -/
def add_documents {L D E B : Type} (addDocs : B → List D → B)
    (s : VectorStore L D E B) (docs : List D) : VectorStore L D E B × B :=
  let s' : VectorStore L D E B := { s with db := addDocs s.db docs }
  (s', s'.db)

/-- C9: `add_documents` updates the stored index in place, returns exactly the
index that `get_db` then returns, and leaves every other field of the
`VectorStore` (loader, documents, chunk_size, chunk_overlap, embeddings)
unchanged. -/
theorem C9_add_documents_frame {L D E B : Type} (addDocs : B → List D → B)
    (s : VectorStore L D E B) (docs : List D) :
    (add_documents addDocs s docs).2 = get_db (add_documents addDocs s docs).1 ∧
    (add_documents addDocs s docs).1.db = addDocs s.db docs ∧
    (add_documents addDocs s docs).1.loader = s.loader ∧
    (add_documents addDocs s docs).1.documents = s.documents ∧
    (add_documents addDocs s docs).1.chunk_size = s.chunk_size ∧
    (add_documents addDocs s docs).1.chunk_overlap = s.chunk_overlap ∧
    (add_documents addDocs s docs).1.embeddings = s.embeddings :=
  ⟨rfl, rfl, rfl, rfl, rfl, rfl, rfl⟩

/-- One top-level statement of src/ragging/main.py: the name it binds and the
names its right-hand side references, in order. -/
structure Binding where
  lhs : String
  refs : List String
  deriving Repr, DecidableEq

/-- Sequential evaluation of the module's top-level statements at the level of
name resolution (Python semantics: a reference to a name with no binding
aborts evaluation at that statement). Each statement looks up its references
in the environment accumulated so far; the first unbound reference aborts with
that name, otherwise the bound name is added and evaluation continues. -/
def runMod : List Binding → List String → Except String (List String)
  | [], env => .ok env
  | b :: rest, env =>
    match b.refs.find? (fun r => !env.contains r) with
    | some r => .error r
    | none => runMod rest (env ++ [b.lhs])

/-- Names bound by the import statements of src/ragging/main.py (lines 1-5). -/
def importedNames : List String :=
  ["VectorStore", "ChatPromptTemplate", "ChatOpenAI", "StrOutputParser",
   "RunnablePassthrough"]

/-- The top-level statements of src/ragging/main.py in source order: the
template literal (line 7), the VectorStore construction (line 18), the prompt
(line 20), the output parser (line 21), the model (line 22), the chain
definition (line 24, whose final stage is written `output_parse`), and the
print of the invoked chain (line 29, bound here as `answer`). -/
def mainStatements : List Binding :=
  [⟨"template", []⟩,
   ⟨"vectorstore", ["VectorStore"]⟩,
   ⟨"prompt", ["ChatPromptTemplate", "template"]⟩,
   ⟨"output_parser", ["StrOutputParser"]⟩,
   ⟨"llm_model", ["ChatOpenAI"]⟩,
   ⟨"rag_chain",
     ["vectorstore", "RunnablePassthrough", "prompt", "llm_model",
      "output_parse"]⟩,
   ⟨"answer", ["rag_chain"]⟩]

/-- The corrected wiring of the spec's design note: identical to
`mainStatements` except that the chain's final stage references
`output_parser`, the parser bound to its own name, so the chain composes the
retriever (through `vectorstore`), the prompt, the model and the parser. -/
def correctedStatements : List Binding :=
  [⟨"template", []⟩,
   ⟨"vectorstore", ["VectorStore"]⟩,
   ⟨"prompt", ["ChatPromptTemplate", "template"]⟩,
   ⟨"output_parser", ["StrOutputParser"]⟩,
   ⟨"llm_model", ["ChatOpenAI"]⟩,
   ⟨"rag_chain",
     ["vectorstore", "RunnablePassthrough", "prompt", "llm_model",
      "output_parser"]⟩,
   ⟨"answer", ["rag_chain"]⟩]

/-- C2: evaluating main.py aborts at the chain definition on the unbound name
`output_parse` (a name no statement or import ever binds), before the print
statement produces any answer; under the corrected wiring the whole module
evaluates, binding the chain - composed of the retriever, the prompt, the
model and the parser - and then the answer. -/
theorem C2_broken_reference :
    runMod mainStatements importedNames = .error ("output_parse") ∧
    ("output_parse") ∉ importedNames ++ mainStatements.map Binding.lhs ∧
    runMod correctedStatements importedNames =
      .ok (importedNames ++
        ["template", "vectorstore", "prompt", "output_parser", "llm_model",
         "rag_chain", "answer"]) := by
  refine ⟨by rfl, by decide, by rfl⟩

/-- The prompt template literal of src/ragging/main.py (lines 7-16),
verbatim. -/
def template : String :=
  "\nYou are a helpful assistant that can answer questions about the text provided.\nIf you don't know the answer, just say \"I don't know\".\nUse 10 sentences minimum and keep the answer concise.\nQuestion:\n{question}\nContext:\n{context}\nAnswer:\n"

/-- Single-pass placeholder substitution over the template's characters: the
semantics of rendering the fixed f-string template (the rendering machinery,
`ChatPromptTemplate.from_template`, is library code; modelled from the spec's
Prompt Assembler contract, section 4.6). In literal mode (first argument
`none`) characters are copied and an opening brace switches to key mode; in
key mode (`some acc`) characters accumulate into the key (reversed) until the
closing brace, which splices the environment's value for the key. An unclosed
placeholder or a key the environment lacks fails, modelling `TemplateError`. -/
def fmtAux (env : String → Option String) :
    Option (List Char) → List Char → Option (List Char)
  | none, [] => some []
  | none, '{' :: rest => fmtAux env (some []) rest
  | none, c :: rest => (fmtAux env none rest).map (fun l => c :: l)
  | some _, [] => none
  | some acc, '}' :: rest =>
    match env (String.mk acc.reverse) with
    | some v => (fmtAux env none rest).map (fun l => v.data ++ l)
    | none => none
  | some acc, c :: rest => fmtAux env (some (c :: acc)) rest

/-- Modelled from the spec: the fixed separator joining the retrieved chunk
texts, in retrieval order, into the context placeholder (section 4.6). -/
def ctxJoin : List String → String
  | [] => ""
  | [c] => c
  | c :: cs => c ++ "\n\n" ++ ctxJoin cs

/-- Environment of the two placeholders the chain fills: `question` with the
user's question, `context` with the joined retrieved chunks. -/
def assembleEnv (q ctx : String) : String → Option String :=
  fun k =>
    if k = "question" then some q
    else if k = "context" then some ctx
    else none

/-- The Prompt Assembler: renders the fixed template of main.py with the
question and the joined retrieved chunk texts substituted for their
placeholders. -/
def assemble (q : String) (chunks : List String) : Option String :=
  (fmtAux (assembleEnv q (ctxJoin chunks)) none template.data).map String.mk

/-- Template text before the question placeholder. -/
def tplPre : String :=
  "\nYou are a helpful assistant that can answer questions about the text provided.\nIf you don't know the answer, just say \"I don't know\".\nUse 10 sentences minimum and keep the answer concise.\nQuestion:\n"

/-- Template text between the question and context placeholders. -/
def tplMid : String := "\nContext:\n"

/-- Template text after the context placeholder. -/
def tplPost : String := "\nAnswer:\n"

set_option maxRecDepth 8000 in
theorem assemble_eq (q : String) (cs : List String) :
    assemble q cs
      = some (String.mk (tplPre.data ++ (q.data ++ (tplMid.data ++
          ((ctxJoin cs).data ++ tplPost.data))))) :=
  rfl

/-- The string `needle` occurs literally inside `hay`. -/
def occursIn (needle hay : String) : Prop :=
  ∃ l r, hay.data = l ++ (needle.data ++ r)

/-- The listed character sequences occur inside the text, in the given order
and without overlapping. -/
def InOrder : List (List Char) → List Char → Prop
  | [], _ => True
  | n :: ns, h => ∃ l r, h = l ++ (n ++ r) ∧ InOrder ns r

theorem inOrder_shift (ns : List (List Char)) (pre h : List Char)
    (hn : InOrder ns h) : InOrder ns (pre ++ h) := by
  cases ns with
  | nil => exact trivial
  | cons n ns =>
    obtain ⟨l, r, hh, hrest⟩ := hn
    exact ⟨pre ++ l, r, by rw [hh, List.append_assoc], hrest⟩

theorem ctxJoin_inOrder : ∀ (cs : List String) (rest : List Char),
    InOrder (cs.map String.data) ((ctxJoin cs).data ++ rest) := by
  intro cs
  induction cs with
  | nil => intro rest; exact trivial
  | cons c cs ih =>
    intro rest
    cases cs with
    | nil => exact ⟨[], rest, rfl, trivial⟩
    | cons c' cs' =>
      refine ⟨[], ("\n\n".data) ++ ((ctxJoin (c' :: cs')).data ++ rest),
        ?_, inOrder_shift _ _ _ (ih rest)⟩
      show (c ++ "\n\n" ++ ctxJoin (c' :: cs')).data ++ rest = _
      simp [String.data_append, List.append_assoc]

/-- Template text before the literal sentinel in the instruction line. -/
def preIDK : String :=
  "\nYou are a helpful assistant that can answer questions about the text provided.\nIf you don't know the answer, just say \""

/-- Template text after the literal sentinel in the instruction line. -/
def postIDK : String :=
  "\".\nUse 10 sentences minimum and keep the answer concise.\nQuestion:\n"

set_option maxRecDepth 8000 in
theorem tplPre_split :
    tplPre.data = preIDK.data ++ (("I don't know").data ++ postIDK.data) :=
  rfl

/-- C7: prompt assembly is deterministic (equal inputs give an equal prompt),
always succeeds on the fixed template, and the assembled prompt contains the
literal question text, the retrieved chunk texts in retrieval order, and the
literal sentinel instruction text of the template. -/
theorem C7_prompt_assembly (q : String) (cs : List String)
    (q' : String) (cs' : List String) (hq : q' = q) (hcs : cs' = cs) :
    assemble q' cs' = assemble q cs ∧
    ∃ p, assemble q cs = some p ∧
      occursIn q p ∧
      InOrder (cs.map String.data) p.data ∧
      occursIn ("I don't know") p := by
  refine ⟨by rw [hq, hcs],
    String.mk (tplPre.data ++ (q.data ++ (tplMid.data ++
      ((ctxJoin cs).data ++ tplPost.data)))),
    assemble_eq q cs, ?_, ?_, ?_⟩
  · exact ⟨tplPre.data,
      tplMid.data ++ ((ctxJoin cs).data ++ tplPost.data), rfl⟩
  · exact inOrder_shift _ tplPre.data _
      (inOrder_shift _ q.data _
        (inOrder_shift _ tplMid.data _ (ctxJoin_inOrder cs tplPost.data)))
  · refine ⟨preIDK.data,
      postIDK.data ++ (q.data ++ (tplMid.data ++
        ((ctxJoin cs).data ++ tplPost.data))), ?_⟩
    show tplPre.data ++ _ = _
    rw [tplPre_split]
    simp [List.append_assoc]

/-- Witness for C7 at the question of main.py and two concrete chunks. -/
theorem C7_prompt_assembly_witness :
    assemble ("What is Ashu AI") ["ctx one", "ctx two"]
      = assemble ("What is Ashu AI") ["ctx one", "ctx two"] ∧
    ∃ p, assemble ("What is Ashu AI") ["ctx one", "ctx two"] = some p ∧
      occursIn ("What is Ashu AI") p ∧
      InOrder (["ctx one", "ctx two"].map String.data) p.data ∧
      occursIn ("I don't know") p :=
  C7_prompt_assembly ("What is Ashu AI") ["ctx one", "ctx two"]
    ("What is Ashu AI") ["ctx one", "ctx two"] rfl rfl

theorem except_bind_ok {E α β : Type} (a : α) (f : α → Except E β) :
    (Except.ok a >>= f) = f a :=
  rfl

theorem except_bind_error {E α β : Type} (e : E) (f : α → Except E β) :
    ((Except.error e : Except E α) >>= f) = Except.error e :=
  rfl

/-- The orchestration of the whole pipeline (build time in
`VectorStore.__init__`: load, split, embed, index; query time in the chain of
main.py: retrieve, assemble the prompt, generate, parse), composed
sequentially over fallible stages. The stages themselves are the external
collaborators; Python's exception propagation through straight-line calls with
no try/except (there is none in main.py or vectorstore.py) is embedded as
`Except` bind. -/
def ragPipeline {E Doc Chunk Vec Idx : Type}
    (load : Except E Doc)
    (split : Doc → Except E (List Chunk))
    (embed : List Chunk → Except E (List Vec))
    (index : List Chunk → List Vec → Except E Idx)
    (retrieve : Idx → String → Except E (List Chunk))
    (assembleP : String → List Chunk → Except E String)
    (generate : String → Except E String)
    (parse : String → Except E String)
    (q : String) : Except E String := do
  let d ← load
  let cs ← split d
  let vs ← embed cs
  let ix ← index cs vs
  let rcs ← retrieve ix q
  let p ← assembleP q rcs
  let out ← generate p
  parse out

/-- C8: every failure of any stage (loading, splitting, embedding, indexing,
retrieval, assembly, generation, parsing) propagates unchanged to the caller
of the top-level query operation - no stage is retried, no failure is
swallowed, later stages never run (the result does not depend on them) - and
only when every stage succeeds does the operation return an answer, the full
parsed output. -/
theorem C8_error_propagation {E Doc Chunk Vec Idx : Type}
    (load : Except E Doc) (split : Doc → Except E (List Chunk))
    (embed : List Chunk → Except E (List Vec))
    (index : List Chunk → List Vec → Except E Idx)
    (retrieve : Idx → String → Except E (List Chunk))
    (assembleP : String → List Chunk → Except E String)
    (generate : String → Except E String)
    (parse : String → Except E String)
    (q : String) (e : E) :
    (load = .error e →
      ragPipeline load split embed index retrieve assembleP generate parse q
        = .error e) ∧
    (∀ d, load = .ok d → split d = .error e →
      ragPipeline load split embed index retrieve assembleP generate parse q
        = .error e) ∧
    (∀ d cs, load = .ok d → split d = .ok cs → embed cs = .error e →
      ragPipeline load split embed index retrieve assembleP generate parse q
        = .error e) ∧
    (∀ d cs vs, load = .ok d → split d = .ok cs → embed cs = .ok vs →
      index cs vs = .error e →
      ragPipeline load split embed index retrieve assembleP generate parse q
        = .error e) ∧
    (∀ d cs vs ix, load = .ok d → split d = .ok cs → embed cs = .ok vs →
      index cs vs = .ok ix → retrieve ix q = .error e →
      ragPipeline load split embed index retrieve assembleP generate parse q
        = .error e) ∧
    (∀ d cs vs ix rcs, load = .ok d → split d = .ok cs → embed cs = .ok vs →
      index cs vs = .ok ix → retrieve ix q = .ok rcs →
      assembleP q rcs = .error e →
      ragPipeline load split embed index retrieve assembleP generate parse q
        = .error e) ∧
    (∀ d cs vs ix rcs p, load = .ok d → split d = .ok cs → embed cs = .ok vs →
      index cs vs = .ok ix → retrieve ix q = .ok rcs →
      assembleP q rcs = .ok p → generate p = .error e →
      ragPipeline load split embed index retrieve assembleP generate parse q
        = .error e) ∧
    (∀ d cs vs ix rcs p out, load = .ok d → split d = .ok cs →
      embed cs = .ok vs → index cs vs = .ok ix → retrieve ix q = .ok rcs →
      assembleP q rcs = .ok p → generate p = .ok out →
      ragPipeline load split embed index retrieve assembleP generate parse q
        = parse out) := by
  refine ⟨?_, ?_, ?_, ?_, ?_, ?_, ?_, ?_⟩
  · intro h1
    rw [ragPipeline, h1, except_bind_error]
  · intro d h1 h2
    rw [ragPipeline, h1, except_bind_ok, h2, except_bind_error]
  · intro d cs h1 h2 h3
    rw [ragPipeline, h1, except_bind_ok, h2, except_bind_ok, h3,
      except_bind_error]
  · intro d cs vs h1 h2 h3 h4
    rw [ragPipeline, h1, except_bind_ok, h2, except_bind_ok, h3,
      except_bind_ok, h4, except_bind_error]
  · intro d cs vs ix h1 h2 h3 h4 h5
    rw [ragPipeline, h1, except_bind_ok, h2, except_bind_ok, h3,
      except_bind_ok, h4, except_bind_ok, h5, except_bind_error]
  · intro d cs vs ix rcs h1 h2 h3 h4 h5 h6
    rw [ragPipeline, h1, except_bind_ok, h2, except_bind_ok, h3,
      except_bind_ok, h4, except_bind_ok, h5, except_bind_ok, h6,
      except_bind_error]
  · intro d cs vs ix rcs p h1 h2 h3 h4 h5 h6 h7
    rw [ragPipeline, h1, except_bind_ok, h2, except_bind_ok, h3,
      except_bind_ok, h4, except_bind_ok, h5, except_bind_ok, h6,
      except_bind_ok, h7, except_bind_error]
  · intro d cs vs ix rcs p out h1 h2 h3 h4 h5 h6 h7
    rw [ragPipeline, h1, except_bind_ok, h2, except_bind_ok, h3,
      except_bind_ok, h4, except_bind_ok, h5, except_bind_ok, h6,
      except_bind_ok, h7, except_bind_ok]

/-- Witness for C8: with every stage instantiated concretely over strings, a
failing load propagates its error, and an all-success run returns the parsed
output. -/
theorem C8_error_propagation_witness :
    @ragPipeline String String String String String (.error ("boom"))
        (fun d => .ok [d]) (fun _ => .ok []) (fun _ _ => .ok ("ix"))
        (fun _ _ => .ok []) (fun s _ => .ok s) (fun s => .ok s)
        (fun s => .ok s) ("q") = .error ("boom") ∧
    @ragPipeline String String String String String (.ok ("doc"))
        (fun d => .ok [d]) (fun _ => .ok []) (fun _ _ => .ok ("ix"))
        (fun _ _ => .ok []) (fun s _ => .ok s) (fun s => .ok s)
        (fun s => .ok s) ("q") = .ok ("q") :=
  ⟨(@C8_error_propagation String String String String String (.error ("boom"))
      (fun d => .ok [d]) (fun _ => .ok []) (fun _ _ => .ok ("ix"))
      (fun _ _ => .ok []) (fun s _ => .ok s) (fun s => .ok s)
      (fun s => .ok s) ("q") ("boom")).1 rfl,
   (@C8_error_propagation String String String String String (.ok ("doc"))
      (fun d => .ok [d]) (fun _ => .ok []) (fun _ _ => .ok ("ix"))
      (fun _ _ => .ok []) (fun s _ => .ok s) (fun s => .ok s)
      (fun s => .ok s) ("q")
      ("boom")).2.2.2.2.2.2.2 ("doc") ["doc"] [] ("ix") [] ("q") ("q")
      rfl rfl rfl rfl rfl rfl rfl⟩

/-- Outcome of one HTTP request as seen by the fetcher's try blocks: a parsed
JSON body, an HTTPError with its status code (raised by
`raise_for_status`), or any other exception (network failure, timeout,
malformed response body raising in `response.json()`). -/
inductive HttpOutcome (α : Type) where
  | success (json : α)
  | httpError (status : ℕ)
  | failure

/-- `get_book_by_id` of src/qwen-playground/scripts/fetch_wattpad_stories.py
(lines 23-34): on success the parsed JSON is returned; on HTTPError a 404
returns None and any other status logs the error and returns None; any other
exception logs the error and returns None. -/
def get_book_by_id {Book : Type} (resp : HttpOutcome Book) : Option Book :=
  match resp with
  | .success j => some j
  | .httpError s => if s = 404 then none else none
  | .failure => none

/-- `get_book_by_part_id` of the same file (lines 51-64): like
`get_book_by_id`, except that on success the book is extracted from the
response's group field via `data.get`, which itself may be absent (`none`). -/
def get_book_by_part_id {Book : Type} (resp : HttpOutcome (Option Book)) :
    Option Book :=
  match resp with
  | .success g => g
  | .httpError s => if s = 404 then none else none
  | .failure => none

/-- `fetch_wattpad_story` of the same file (lines 134-144): look the story up
by story ID; if that yields no book, fall through to the part-ID lookup; if
that also yields no book, raise ValueError; otherwise return the book found.
The optional per-part text enrichment (lines 146-161) only augments the
returned book and does not affect the lookup or the ValueError, so it is not
modelled. -/
def fetch_wattpad_story {Book : Type} (storyResp : HttpOutcome Book)
    (partResp : HttpOutcome (Option Book)) : Except String Book :=
  match get_book_by_id storyResp with
  | some b => .ok b
  | none =>
    match get_book_by_part_id partResp with
    | some b => .ok b
    | none => .error ("ValueError: story or part not found")

/-- C10: `fetch_wattpad_story` raises ValueError exactly when both the
story-ID lookup and the part-ID lookup yield no book; every lookup failure
inside the helpers (non-404 HTTP errors, network errors, malformed responses)
becomes None rather than propagating, so a failed story-ID lookup always
falls through to the part-ID lookup, whose book is then returned. -/
theorem C10_fetch_value_error {Book : Type} (storyResp : HttpOutcome Book)
    (partResp : HttpOutcome (Option Book)) :
    ((∃ msg, fetch_wattpad_story storyResp partResp = .error msg) ↔
      get_book_by_id storyResp = none ∧
        get_book_by_part_id partResp = none) ∧
    (∀ s, s ≠ 404 →
      get_book_by_id (HttpOutcome.httpError s : HttpOutcome Book) = none) ∧
    get_book_by_id (HttpOutcome.failure : HttpOutcome Book) = none ∧
    (get_book_by_id storyResp = none →
      ∀ b, get_book_by_part_id partResp = some b →
        fetch_wattpad_story storyResp partResp = .ok b) := by
  refine ⟨⟨?_, ?_⟩, ?_, rfl, ?_⟩
  · rintro ⟨msg, hm⟩
    unfold fetch_wattpad_story at hm
    cases hsb : get_book_by_id storyResp with
    | some b =>
      rw [hsb] at hm
      cases hm
    | none =>
      rw [hsb] at hm
      cases hpb : get_book_by_part_id partResp with
      | some b =>
        rw [hpb] at hm
        cases hm
      | none => exact ⟨rfl, rfl⟩
  · rintro ⟨h1, h2⟩
    refine ⟨"ValueError: story or part not found", ?_⟩
    unfold fetch_wattpad_story
    rw [h1, h2]
  · intro s hs
    show (if s = 404 then (none : Option Book) else none) = none
    rw [if_neg hs]
  · intro h1 b h2
    unfold fetch_wattpad_story
    rw [h1, h2]

/-- Witness for C10: a non-404 server error and a network failure both become
None, and a failed story-ID lookup falls through to a successful part-ID
lookup. -/
theorem C10_fetch_value_error_witness :
    get_book_by_id (HttpOutcome.httpError 500 : HttpOutcome String) = none ∧
    fetch_wattpad_story (HttpOutcome.failure : HttpOutcome String)
      (HttpOutcome.success (some ("thebook"))) = .ok ("thebook") :=
  ⟨(C10_fetch_value_error (HttpOutcome.failure : HttpOutcome String)
      (HttpOutcome.success (some ("thebook")))).2.1 500 (by decide),
   (C10_fetch_value_error (HttpOutcome.failure : HttpOutcome String)
      (HttpOutcome.success (some ("thebook")))).2.2.2 rfl ("thebook") rfl⟩
